import Mathlib

/-!
Verification of the Mentorio agent-service delegation core.

Shallow embedding of the record-store helpers (`src/agents_pkg/db.py`),
the task-executor tools (`src/agents_pkg/tools.py`), the context loader
(`src/agents_pkg/coach_majen.py`) and the chat turn shell with its safety
guardrail (`src/main.py`, `src/agents_pkg/guardrails.py`).

The record store is modelled as typed per-collection row lists plus an
`available` flag: the Python helpers `upsert_row`, `insert_row`,
`find_one`, `find_many` and `next_version` wrap every Supabase call in
try/except, so an unreachable store is observable only as a swallowed
failure (None / empty result); raw `get_db().table(...)` calls that are
not wrapped are modelled as `Except` failures.  Decoded JSON arguments
(Python `json.loads` results) are modelled by the `PyVal` inductive with
Python truthiness.
-/

namespace Mentorio

/-- A decoded Python/JSON value, as produced by `json.loads`. -/
inductive PyVal where
  | none
  | bool (b : Bool)
  | num (q : ℚ)
  | str (s : String)
  | list (xs : List PyVal)
  | dict (kvs : List (String × PyVal))

/-- Python truthiness (`bool(v)`) for decoded values. -/
def PyVal.truthy : PyVal → Bool
  | .none => false
  | .bool b => b
  | .num q => decide (q ≠ 0)
  | .str s => decide (s ≠ "")
  | .list xs => !xs.isEmpty
  | .dict kvs => !kvs.isEmpty

/-- Python `isinstance(v, list)` for decoded values. -/
def PyVal.isList : PyVal → Bool
  | .list _ => true
  | _ => false

/-- Python `str(v)` rendering, scalar-precise (collections rendered roughly). -/
def PyVal.render : PyVal → String
  | .none => "None"
  | .bool b => if b then "True" else "False"
  | .num q => toString q
  | .str s => s
  | .list _ => "[...]"
  | .dict _ => "dict"

/-- Row of the `weight_entries` collection. -/
structure WeightRow where
  user_id : String
  date : String
  kg : ℚ
deriving Repr, DecidableEq

/-- Optional structured `after` payload of a change event. -/
structure ChangeAfter where
  version : Nat
  reason : String
deriving Repr, DecidableEq

/-- Row of the append-only `change_events` audit collection. -/
structure ChangeEvent where
  user_id : String
  type : String
  summary : String
  actor : String
  after : Option ChangeAfter := Option.none
deriving Repr, DecidableEq

/-- Row of the `training_plan_versions` collection. -/
structure TrainingPlanRow where
  user_id : String
  version : Nat
  days : List PyVal
  created_at : String

/-- Row of the `nutrition_plan_versions` collection. -/
structure NutritionPlanRow where
  user_id : String
  version : Nat
  kcal : Int
  protein_grams : Int
  carbs_grams : Int
  fat_grams : Int
  meals : PyVal
  notes : String
  created_at : String

/-- Row of the `goals` collection. -/
structure GoalRow where
  user_id : String
  version : Nat
  is_current : Bool
  target_weight_kg : Option ℚ
  strength_targets : String
  horizon_weeks : Option Int
  plan_text : Option String
  created_at : String

/-- Row of the `workout_logs` collection. -/
structure WorkoutRow where
  user_id : String
  date : String
  entries : PyVal

/-- Row of the `user_context` (remembered facts) collection. -/
structure FactRow where
  user_id : String
  key : String
  value : String
  source : String := ""
  updated_at : String := ""
deriving Repr, DecidableEq

/-- Row of the `users` collection (name fields only; absent modelled ""). -/
structure UserRow where
  id : String
  firstName : String := ""
  first_name : String := ""
  username : String := ""
deriving Repr, DecidableEq

/-- Row of the `user_profiles` collection (onboarding fields). -/
structure ProfileRow where
  user_id : String
  gender : PyVal := .none
  age : PyVal := .none
  height_cm : PyVal := .none
  current_weight_kg : PyVal := .none
  training_days_per_week : PyVal := .none
  goals : PyVal := .none
  fitness_level : PyVal := .none
  training_location : PyVal := .none
  available_equipment : PyVal := .none
  injury_history : PyVal := .none
  nutrition_preferences : PyVal := .none

/-- Row of the `coach_knowledge` collection. -/
structure KnowledgeRow where
  mentor_id : String
  key : String
  value : String
deriving Repr, DecidableEq

/-- The record store: one list per collection the claims touch, plus an
`available` flag standing for Supabase reachability. -/
structure Store where
  available : Bool := true
  weight_entries : List WeightRow := []
  workout_logs : List WorkoutRow := []
  training_plan_versions : List TrainingPlanRow := []
  nutrition_plan_versions : List NutritionPlanRow := []
  goals : List GoalRow := []
  user_context : List FactRow := []
  change_events : List ChangeEvent := []
  users : List UserRow := []
  user_profiles : List ProfileRow := []
  coach_knowledge : List KnowledgeRow := []

/-- A reachable store with every collection empty (used as the concrete
initial state of the witness runs). -/
def emptyStore : Store := {}

/-- Result of a task-executor tool: the structured fields of the JSON
object the Python tool serializes (`success`, `message`, `error`). -/
structure ExecResult where
  success : Bool
  message : String := ""
  error : String := ""
deriving Repr, DecidableEq

/-- Generic keyed upsert (Supabase `.upsert(row, on_conflict=keys)`):
rows matching the conflict key are replaced by the new row, otherwise
the row is appended. -/
def upsertByKey {α : Type} (keyEq : α → α → Bool) (xs : List α) (row : α) : List α :=
  if xs.any (keyEq row) then xs.map (fun x => if keyEq row x then row else x)
  else xs ++ [row]

/-- `db.upsert_row(WEIGHT_ENTRIES, row, "user_id,date")`: swallows store
failure, returning `none` and leaving the store unchanged. -/
def upsert_row_weight (s : Store) (row : WeightRow) : Option WeightRow × Store :=
  if s.available then
    let ws := upsertByKey (fun a b => a.user_id == b.user_id && a.date == b.date) s.weight_entries row
    (some row, { s with weight_entries := ws })
  else (Option.none, s)

/-- `db.upsert_row(WORKOUT_LOGS, row, "user_id,date")`. -/
def upsert_row_workout (s : Store) (row : WorkoutRow) : Option WorkoutRow × Store :=
  if s.available then
    let ws := upsertByKey (fun a b => a.user_id == b.user_id && a.date == b.date) s.workout_logs row
    (some row, { s with workout_logs := ws })
  else (Option.none, s)

/-- `db.upsert_row(USER_CONTEXT, row, "user_id,key")`. -/
def upsert_row_fact (s : Store) (row : FactRow) : Option FactRow × Store :=
  if s.available then
    let fs := upsertByKey (fun a b => a.user_id == b.user_id && a.key == b.key) s.user_context row
    (some row, { s with user_context := fs })
  else (Option.none, s)

/-- `db.insert_row(CHANGE_EVENTS, row)`: swallows store failure. -/
def insert_row_change (s : Store) (row : ChangeEvent) : Option ChangeEvent × Store :=
  if s.available then (some row, { s with change_events := s.change_events ++ [row] })
  else (Option.none, s)

/-- `db.insert_row(TRAINING_PLAN_VERSIONS, row)`. -/
def insert_row_tp (s : Store) (row : TrainingPlanRow) : Option TrainingPlanRow × Store :=
  if s.available then (some row, { s with training_plan_versions := s.training_plan_versions ++ [row] })
  else (Option.none, s)

/-- `db.insert_row(NUTRITION_PLAN_VERSIONS, row)`. -/
def insert_row_np (s : Store) (row : NutritionPlanRow) : Option NutritionPlanRow × Store :=
  if s.available then (some row, { s with nutrition_plan_versions := s.nutrition_plan_versions ++ [row] })
  else (Option.none, s)

/-- `db.insert_row(GOALS, row)`. -/
def insert_row_goal (s : Store) (row : GoalRow) : Option GoalRow × Store :=
  if s.available then (some row, { s with goals := s.goals ++ [row] })
  else (Option.none, s)

/-- Versions of a user's rows in `training_plan_versions`. -/
def tpVersions (s : Store) (uid : String) : List Nat :=
  (s.training_plan_versions.filter (fun r => r.user_id == uid)).map (fun r => r.version)

/-- Versions of a user's rows in `nutrition_plan_versions`. -/
def npVersions (s : Store) (uid : String) : List Nat :=
  (s.nutrition_plan_versions.filter (fun r => r.user_id == uid)).map (fun r => r.version)

/-- Versions of a user's rows in `goals`. -/
def goalVersions (s : Store) (uid : String) : List Nat :=
  (s.goals.filter (fun r => r.user_id == uid)).map (fun r => r.version)

/-- `db.next_version(table, user_id)`: max existing version for the user
(computed in the query by `order version desc / limit 1`) plus one, or 1
when none exists; any store failure is swallowed into 1. -/
def next_version_tp (s : Store) (uid : String) : Nat :=
  if s.available then (tpVersions s uid).foldl max 0 + 1 else 1

/-- `db.next_version(NUTRITION_PLAN_VERSIONS, user_id)`. -/
def next_version_np (s : Store) (uid : String) : Nat :=
  if s.available then (npVersions s uid).foldl max 0 + 1 else 1

/-- `db.next_version(GOALS, user_id)`. -/
def next_version_goal (s : Store) (uid : String) : Nat :=
  if s.available then (goalVersions s uid).foldl max 0 + 1 else 1

/-- Python `log_date or today_str()`: empty string is falsy. -/
def resolveDate (log_date today : String) : String :=
  if log_date = "" then today else log_date

/-- `tools.log_weight`: validate `kg` against [20, 500] before any store
call; on success upsert the weight row on (user_id, date) and append a
WEIGHT_LOG change event. -/
def log_weight (s : Store) (uid : String) (kg : ℚ) (log_date today : String) :
    ExecResult × Store :=
  let d := resolveDate log_date today
  if kg < 20 ∨ kg > 500 then
    ({ success := false, error := "Vekt må være mellom 20 og 500 kg" }, s)
  else
    let s1 := (upsert_row_weight s { user_id := uid, date := d, kg := kg }).2
    let s2 := (insert_row_change s1
      { user_id := uid, type := "WEIGHT_LOG",
        summary := "Vekt logget: " ++ toString kg ++ " kg (" ++ d ++ ")",
        actor := "agent" }).2
    ({ success := true,
       message := "Vekt logget: " ++ toString kg ++ " kg (" ++ d ++ "). Synlig i Student Senteret." }, s2)

/-- `tools.save_training_plan`: `json.loads(days_json)` failure returns a
structured error; a decoded value that is Python-falsy or not a list is
rejected with no mutation (`if not days or not isinstance(days, list)`);
otherwise insert a new versioned row and a TRAINING_PLAN_SAVED change
event. -/
def save_training_plan (s : Store) (uid : String) (daysParse : Except String PyVal)
    (reason now : String) : ExecResult × Store :=
  match daysParse with
  | .error e => ({ success := false, error := "Ugyldig JSON: " ++ e }, s)
  | .ok days =>
    match days with
    | .list (d :: ds) =>
        let xs := d :: ds
        let version := next_version_tp s uid
        let s1 := (insert_row_tp s { user_id := uid, version := version, days := xs, created_at := now }).2
        let s2 := (insert_row_change s1
          { user_id := uid, type := "TRAINING_PLAN_SAVED",
            summary := "Treningsplan v" ++ toString version ++ ": " ++ toString xs.length ++ " dager",
            actor := "agent", after := some { version := version, reason := reason } }).2
        ({ success := true,
           message := "Treningsplan lagret (v" ++ toString version ++ ") med " ++ toString xs.length ++ " treningsdager. Brukeren finner den i Aktivitet-fanen i Student Senteret." }, s2)
    | _ => ({ success := false, error := "days_json må inneholde minst 1 treningsdag" }, s)

/-- `tools.save_nutrition_plan`: `json.loads(meals_json)` failure is
silently coerced to an empty meal list; a versioned row and a
NUTRITION_PLAN_SAVED change event are always written and the result is
always a success. -/
def save_nutrition_plan (s : Store) (uid : String) (kcal protein carbs fat : Int)
    (mealsParse : Except String PyVal) (notes reason now : String) : ExecResult × Store :=
  let meals : PyVal := match mealsParse with
    | .ok m => m
    | .error _ => .list []
  let version := next_version_np s uid
  let s1 := (insert_row_np s
    { user_id := uid, version := version, kcal := kcal, protein_grams := protein,
      carbs_grams := carbs, fat_grams := fat, meals := meals, notes := notes, created_at := now }).2
  let s2 := (insert_row_change s1
    { user_id := uid, type := "NUTRITION_PLAN_SAVED",
      summary := "Kostholdsplan v" ++ toString version ++ ": " ++ toString kcal ++ " kcal, " ++ toString protein ++ "g P",
      actor := "agent", after := some { version := version, reason := reason } }).2
  ({ success := true,
     message := "Kostholdsplan lagret (v" ++ toString version ++ "): " ++ toString kcal ++ " kcal, " ++ toString protein ++ "g protein, " ++ toString carbs ++ "g karbs, " ++ toString fat ++ "g fett. Brukeren finner den i Ernæring-fanen i Student Senteret." }, s2)

/-- `tools.log_workout`: decode failure coerces entries to an empty list;
the workout row is upserted on (user_id, date); no change event is
written. -/
def log_workout (s : Store) (uid : String) (description log_date today : String)
    (entriesParse : Except String PyVal) : ExecResult × Store :=
  let d := resolveDate log_date today
  let entries : PyVal := match entriesParse with
    | .ok e => e
    | .error _ => .list []
  let s1 := (upsert_row_workout s { user_id := uid, date := d, entries := entries }).2
  let msg := if description = "" then "økt registrert" else description
  ({ success := true, message := "Trening logget for " ++ d ++ ": " ++ msg ++ ". Synlig i Aktivitet-fanen." }, s1)

/-- `tools.save_goal`: the raw `get_db().table(GOALS).update(is_current=False)`
call is not wrapped in try/except, so an unreachable store raises out of
the tool; otherwise mark all the user's goal rows not-current, then
insert one next-version row marked current. -/
def save_goal (s : Store) (uid : String) (target_weight_kg : Option ℚ)
    (strength_targets : String) (horizon_weeks : Option Int) (plan_text now : String) :
    Except String (ExecResult × Store) :=
  if s.available then
    let cleared := s.goals.map (fun g => if g.user_id == uid then { g with is_current := false } else g)
    let s0 := { s with goals := cleared }
    let version := next_version_goal s0 uid
    let s1 := (insert_row_goal s0
      { user_id := uid, version := version, is_current := true,
        target_weight_kg := target_weight_kg, strength_targets := strength_targets,
        horizon_weeks := horizon_weeks,
        plan_text := if plan_text = "" then Option.none else some plan_text,
        created_at := now }).2
    .ok ({ success := true, message := "Mål lagret. Synlig på Dashboard i Student Senteret." }, s1)
  else .error "StoreUnavailable"

/-- `tools.remember_fact`: upsert the fact on (user_id, key) and return
success; no change event is written and the upsert result is ignored. -/
def remember_fact (s : Store) (uid key value now : String) : ExecResult × Store :=
  let s1 := (upsert_row_fact s
    { user_id := uid, key := key, value := value, source := "agent", updated_at := now }).2
  ({ success := true, message := "Lagret: " ++ key ++ " = " ++ value }, s1)

/-- Result of `tools.get_current_training_plan`. -/
structure PlanReadResult where
  has_plan : Bool
  version : Option Nat
  days : List PyVal

/-- One step of selecting the highest-version row (earlier row kept on
ties). -/
def betterRow (acc : Option TrainingPlanRow) (r : TrainingPlanRow) : Option TrainingPlanRow :=
  match acc with
  | Option.none => some r
  | some a => if a.version < r.version then some r else some a

/-- Row with the greatest version (Supabase `order version desc / limit 1`). -/
def maxVersionRow (rows : List TrainingPlanRow) : Option TrainingPlanRow :=
  rows.foldl betterRow Option.none

/-- `tools.get_current_training_plan`: raw store read (no try/except), so
an unreachable store raises; otherwise return the user's highest-version
plan row, or a has_plan=false result when none exists. -/
def get_current_training_plan (s : Store) (uid : String) : Except String PlanReadResult :=
  if s.available then
    match maxVersionRow (s.training_plan_versions.filter (fun r => r.user_id == uid)) with
    | Option.none => .ok { has_plan := false, version := Option.none, days := [] }
    | some r => .ok { has_plan := true, version := some r.version, days := r.days }
  else .error "StoreUnavailable"

/-- `context.CoachContext`: per-turn dependency-injection context. -/
structure CoachContext where
  user_id : String
  mentor_id : String
  user_name : String := ""
  onboarding_summary : String := ""
  user_context_summary : String := ""
  mentor_name : String := "Coach Majen"
  mentor_voice_tone : String := ""
  mentor_training_philosophy : String := ""
  mentor_nutrition_philosophy : String := ""
  mentor_core_instructions : String := ""
deriving Repr, DecidableEq

/-- `db.find_one(USERS, id=x)`: first matching row; store failure is
swallowed into `none`. -/
def find_one_user (s : Store) (uid : String) : Option UserRow :=
  if s.available then (s.users.filter (fun u => u.id == uid)).head? else Option.none

/-- `db.find_one(USER_PROFILES, user_id=x)`. -/
def find_one_profile (s : Store) (uid : String) : Option ProfileRow :=
  if s.available then (s.user_profiles.filter (fun p => p.user_id == uid)).head? else Option.none

/-- `db.find_many(USER_CONTEXT, user_id=x)` with the default limit 50;
store failure swallowed into an empty list. -/
def find_many_facts (s : Store) (uid : String) : List FactRow :=
  if s.available then ((s.user_context.filter (fun f => f.user_id == uid)).take 50) else []

/-- `db.find_many(COACH_KNOWLEDGE, mentor_id=x)` with the default limit 50. -/
def find_many_knowledge (s : Store) (mid : String) : List KnowledgeRow :=
  if s.available then ((s.coach_knowledge.filter (fun k => k.mentor_id == mid)).take 50) else []

/-- Python `a or b or c or ""` over name fields (empty string falsy). -/
def firstNonEmpty : List String → String
  | [] => ""
  | x :: xs => if x = "" then firstNonEmpty xs else x

/-- Onboarding lines: the fixed field-to-label mapping of `load_context`,
keeping only Python-truthy profile values, in mapping order. -/
def profileParts (p : ProfileRow) : List String :=
  ([("Kjønn", p.gender), ("Alder", p.age), ("Høyde", p.height_cm),
    ("Vekt", p.current_weight_kg), ("Treningsdager/uke", p.training_days_per_week),
    ("Mål", p.goals), ("Treningsnivå", p.fitness_level),
    ("Treningssted", p.training_location), ("Utstyr", p.available_equipment),
    ("Skader", p.injury_history), ("Matpreferanser", p.nutrition_preferences)]).filterMap
    (fun kv => if kv.2.truthy then some ("- " ++ kv.1 ++ ": " ++ kv.2.render) else Option.none)

/-- Fold coach-knowledge rows into the persona fields (unknown keys ignored). -/
def applyKnowledge (c : CoachContext) (row : KnowledgeRow) : CoachContext :=
  if row.key = "voice_tone" then { c with mentor_voice_tone := row.value }
  else if row.key = "training_philosophy" then { c with mentor_training_philosophy := row.value }
  else if row.key = "nutrition_philosophy" then { c with mentor_nutrition_philosophy := row.value }
  else if row.key = "core_instructions" then { c with mentor_core_instructions := row.value }
  else c

/-- `coach_majen.load_context`: build a CoachContext from the user row,
profile row, remembered facts and coach-knowledge rows; every read goes
through `find_one`/`find_many`, which swallow store failures, so the
function always returns a context and never raises. -/
def load_context (s : Store) (user_id mentor_id : String) : CoachContext :=
  let ctx0 : CoachContext := { user_id := user_id, mentor_id := mentor_id }
  let ctx1 := match find_one_user s user_id with
    | some u => { ctx0 with user_name := firstNonEmpty [u.firstName, u.first_name, u.username] }
    | Option.none => ctx0
  let ctx2 := match find_one_profile s user_id with
    | some p =>
        let parts := profileParts p
        if parts.isEmpty then ctx1
        else { ctx1 with onboarding_summary := String.intercalate "\n" parts }
    | Option.none => ctx1
  let facts := find_many_facts s user_id
  let ctx3 :=
    if facts.isEmpty then ctx2
    else { ctx2 with user_context_summary :=
            String.intercalate "\n" (facts.map (fun r => "- " ++ r.key ++ ": " ++ r.value)) }
  let ctx4 := match find_one_user s mentor_id with
    | some m =>
        let n := firstNonEmpty [m.firstName, m.first_name]
        { ctx3 with mentor_name := "Coach " ++ (if n = "" then "Majen" else n) }
    | Option.none => ctx3
  (find_many_knowledge s mentor_id).foldl applyKnowledge ctx4

/-- `guardrails.SafetyCheckOutput`: the safety classifier's structured
output (an external inference result, opaque to the core). -/
structure SafetyCheckOutput where
  is_unsafe : Bool
  category : String := ""
  reasoning : String := ""
deriving Repr, DecidableEq

/-- `agents.GuardrailFunctionOutput` (tripwire flag only). -/
structure GuardrailFunctionOutput where
  tripwire_triggered : Bool
deriving Repr, DecidableEq

/-- `guardrails.safety_guardrail`: trips exactly when the classifier says
the message is unsafe. -/
def safety_guardrail (output : SafetyCheckOutput) : GuardrailFunctionOutput :=
  { tripwire_triggered := SafetyCheckOutput.is_unsafe output }

/-- `main.ChatResponse`: the transport shell's response model. -/
structure ChatResponse where
  response : String
  agent_name : String := "Coach Majen"
  tools_called : List String := []
  guardrail_blocked : Bool := false
  blocked_reason : String := ""
deriving Repr, DecidableEq

/-- The fixed refusal string of `main.chat`'s guardrail handler. -/
def refusal_text : String :=
  "Beklager, men jeg kan ikke hjelpe med det du spør om. Jeg er en fitness-coach og kan hjelpe deg med trening, kosthold og mål. Hvis du trenger medisinsk hjelp, ta kontakt med legen din."

/-- `main.chat`: one turn of the transport shell.  The input guardrail
runs on the incoming message; a tripped wire raises
`InputGuardrailTripwireTriggered`, which the handler maps to the fixed
refusal response (blocked flag set, reason "safety", no tools called,
store untouched).  Otherwise the Router runs: it is the opaque inference
step, modelled as an arbitrary function from the store to a reply, the
ordered invoked-capability names, and the mutated store. -/
def chat (safety : SafetyCheckOutput)
    (router : Store → String × List String × Store) (s : Store) : ChatResponse × Store :=
  if (safety_guardrail safety).tripwire_triggered then
    ({ response := refusal_text, guardrail_blocked := true, blocked_reason := "safety" }, s)
  else
    let (text, toolNames, s1) := router s
    ({ response := text, tools_called := toolNames }, s1)

/-! ## Helper lemmas -/

/-- After a keyed upsert, the rows matching the key are exactly the new
row, provided the key was unique beforehand (at most one match). -/
lemma upsertByKey_filter_replace {α : Type} (keyEq : α → α → Bool) (p : α → Bool) (row : α)
    (hrow : p row = true) (hiff : ∀ x, p x = true ↔ keyEq row x = true) (xs : List α)
    (hlen : (xs.filter p).length ≤ 1) :
    (upsertByKey keyEq xs row).filter p = [row] := by
  unfold upsertByKey
  by_cases hany : xs.any (keyEq row) = true
  · rw [if_pos hany]
    have hmap : ∀ ys : List α,
        (ys.map (fun x => if keyEq row x then row else x)).filter p
          = List.replicate (ys.filter p).length row := by
      intro ys
      induction ys with
      | nil => simp
      | cons y ys ih =>
        by_cases hy : keyEq row y = true
        · have hpy : p y = true := (hiff y).mpr hy
          simp [hy, hpy, hrow, ih, List.replicate_succ]
        · have hpy : p y = false :=
            Bool.eq_false_iff.mpr (fun hpt => hy ((hiff y).mp hpt))
          simp [hy, hpy, ih]
    rw [hmap]
    have h1 : 1 ≤ (xs.filter p).length := by
      rcases List.any_eq_true.mp hany with ⟨x, hx, hkx⟩
      have hpx : x ∈ xs.filter p := List.mem_filter.mpr ⟨hx, (hiff x).mpr hkx⟩
      exact List.length_pos_of_mem hpx
    have heq : (xs.filter p).length = 1 := le_antisymm hlen h1
    rw [heq]
    rfl
  · rw [if_neg hany]
    have hnil : xs.filter p = [] := by
      apply List.filter_eq_nil_iff.mpr
      intro x hx
      have hk : ¬ keyEq row x = true := fun hk => hany (List.any_eq_true.mpr ⟨x, hx, hk⟩)
      exact fun hpt => hk ((hiff x).mp hpt)
    simp [List.filter_append, hnil, hrow]

/-- The WEIGHT_LOG change event `log_weight` appends. -/
def weightLogEvent (uid : String) (kg : ℚ) (d : String) : ChangeEvent :=
  { user_id := uid, type := "WEIGHT_LOG",
    summary := "Vekt logget: " ++ toString kg ++ " kg (" ++ d ++ ")",
    actor := "agent" }

/-- Success path of `log_weight` on a reachable store with a unique
(user, date) key: success result, exactly the new row under the key, one
appended change event, availability preserved. -/
lemma log_weight_success (s : Store) (uid log_date today : String) (kg : ℚ)
    (hav : s.available = true) (h20 : 20 ≤ kg) (h500 : kg ≤ 500)
    (hlen : (s.weight_entries.filter
        (fun r => r.user_id == uid && r.date == resolveDate log_date today)).length ≤ 1) :
    (log_weight s uid kg log_date today).1.success = true ∧
    ((log_weight s uid kg log_date today).2.weight_entries.filter
        (fun r => r.user_id == uid && r.date == resolveDate log_date today)).map (fun r => r.kg)
      = [kg] ∧
    (log_weight s uid kg log_date today).2.change_events
      = s.change_events ++ [weightLogEvent uid kg (resolveDate log_date today)] ∧
    (log_weight s uid kg log_date today).2.available = true := by
  have hcond : ¬(kg < 20 ∨ kg > 500) := fun hor => hor.elim (not_lt.mpr h20) (not_lt.mpr h500)
  have hfilter : (upsertByKey (fun a b => a.user_id == b.user_id && a.date == b.date)
      s.weight_entries { user_id := uid, date := resolveDate log_date today, kg := kg }).filter
      (fun r => r.user_id == uid && r.date == resolveDate log_date today)
      = [{ user_id := uid, date := resolveDate log_date today, kg := kg }] := by
    apply upsertByKey_filter_replace
    · simp
    · intro x
      simp only [Bool.and_eq_true, beq_iff_eq]
      constructor
      · rintro ⟨h1, h2⟩; exact ⟨h1.symm, h2.symm⟩
      · rintro ⟨h1, h2⟩; exact ⟨h1.symm, h2.symm⟩
    · exact hlen
  unfold log_weight
  rw [if_neg hcond]
  simp only [upsert_row_weight, insert_row_change]
  rw [hav]
  simp only [if_true]
  refine ⟨by trivial, ?_, by trivial, by simp [hav]⟩
  rw [hfilter]
  rfl

/-- C1: for every weight `kg` with 20 ≤ kg ≤ 500 (boundaries included) the
log-weight executor succeeds, upserting the row keyed by (user, date) —
so a repeated log for the same day overwrites rather than accumulates —
and appends a ChangeEvent; for every `kg` < 20 or > 500 it returns a
structured failure and performs no store mutation. -/
theorem C1_log_weight_range_and_upsert (s : Store) (uid log_date today : String) (kg kg2 : ℚ)
    (hav : s.available = true)
    (hlen : (s.weight_entries.filter
        (fun r => r.user_id == uid && r.date == resolveDate log_date today)).length ≤ 1) :
    (20 ≤ kg → kg ≤ 500 →
      (log_weight s uid kg log_date today).1.success = true ∧
      ((log_weight s uid kg log_date today).2.weight_entries.filter
          (fun r => r.user_id == uid && r.date == resolveDate log_date today)).map (fun r => r.kg)
        = [kg] ∧
      (log_weight s uid kg log_date today).2.change_events
        = s.change_events ++ [weightLogEvent uid kg (resolveDate log_date today)]) ∧
    (20 ≤ kg → kg ≤ 500 → 20 ≤ kg2 → kg2 ≤ 500 →
      ((log_weight (log_weight s uid kg log_date today).2 uid kg2 log_date today).2.weight_entries.filter
          (fun r => r.user_id == uid && r.date == resolveDate log_date today)).map (fun r => r.kg)
        = [kg2]) ∧
    (kg < 20 ∨ kg > 500 →
      (log_weight s uid kg log_date today).1.success = false ∧
      (log_weight s uid kg log_date today).2 = s) := by
  refine ⟨?_, ?_, ?_⟩
  · intro h20 h500
    obtain ⟨h1, h2, h3, _⟩ := log_weight_success s uid log_date today kg hav h20 h500 hlen
    exact ⟨h1, h2, h3⟩
  · intro h20 h500 h20b h500b
    obtain ⟨_, h2, _, h4⟩ := log_weight_success s uid log_date today kg hav h20 h500 hlen
    have hlen2 : ((log_weight s uid kg log_date today).2.weight_entries.filter
        (fun r => r.user_id == uid && r.date == resolveDate log_date today)).length ≤ 1 := by
      have := congrArg List.length h2
      simpa using Nat.le_of_eq this
    obtain ⟨_, h2b, _, _⟩ := log_weight_success (log_weight s uid kg log_date today).2
      uid log_date today kg2 h4 h20b h500b hlen2
    exact h2b
  · intro hor
    constructor
    · simp [log_weight, if_pos hor]
    · simp [log_weight, if_pos hor]

/-- C1 witness: concrete runs on an empty reachable store — kg = 80
succeeds, a repeated log of kg = 82 the same day overwrites, and kg = 600
is rejected without mutation. -/
theorem C1_log_weight_range_and_upsert_witness :
    (emptyStore.available = true ∧
      ((emptyStore.weight_entries.filter
        (fun r => r.user_id == "u1" && r.date == resolveDate "" "2026-01-01")).length ≤ 1)) ∧
    ((log_weight emptyStore "u1" 80 "" "2026-01-01").1.success = true ∧
      ((log_weight emptyStore "u1" 80 "" "2026-01-01").2.weight_entries.filter
          (fun r => r.user_id == "u1" && r.date == resolveDate "" "2026-01-01")).map (fun r => r.kg)
        = [80] ∧
      (log_weight emptyStore "u1" 80 "" "2026-01-01").2.change_events
        = emptyStore.change_events ++ [weightLogEvent "u1" 80 (resolveDate "" "2026-01-01")]) ∧
    (((log_weight (log_weight emptyStore "u1" 80 "" "2026-01-01").2 "u1" 82 "" "2026-01-01").2.weight_entries.filter
          (fun r => r.user_id == "u1" && r.date == resolveDate "" "2026-01-01")).map (fun r => r.kg)
        = [82]) ∧
    ((log_weight emptyStore "u1" 600 "" "2026-01-01").1.success = false ∧
      (log_weight emptyStore "u1" 600 "" "2026-01-01").2 = emptyStore) :=
  ⟨⟨rfl, by decide⟩,
    (C1_log_weight_range_and_upsert emptyStore "u1" "" "2026-01-01" 80 82 rfl (by decide)).1
      (by decide) (by decide),
    (C1_log_weight_range_and_upsert emptyStore "u1" "" "2026-01-01" 80 82 rfl (by decide)).2.1
      (by decide) (by decide) (by decide) (by decide),
    (C1_log_weight_range_and_upsert emptyStore "u1" "" "2026-01-01" 600 82 rfl (by decide)).2.2
      (Or.inr (by decide))⟩

/-- A store that is unreachable: every Supabase call raises, which the
db helpers swallow. -/
def downStore : Store := { available := false }

/-- C4: the spec demands that a failed primary store mutation surface as
a capability-level failure, but `log_weight` ignores the `None` returned
by `upsert_row` on store failure and returns success anyway: on an
unreachable store, kg = 80 passes validation, nothing is written, and
the result still reports success. -/
theorem C4_log_weight_claims_success_on_failed_write :
    (log_weight downStore "u1" 80 "" "2026-01-01").1.success = true ∧
    (log_weight downStore "u1" 80 "" "2026-01-01").2 = downStore := by
  constructor
  · rfl
  · rfl

/-- C6: whenever the safety classifier labels the incoming message
unsafe, the guardrail tripwire aborts the turn before the Router runs:
for every possible router behaviour, the response is the fixed refusal
text, the blocked flag is set with reason "safety", the invoked-tool
list is empty, and the store is untouched (no Task Executor ran). -/
theorem C6_unsafe_message_short_circuits (safety : SafetyCheckOutput)
    (router : Store → String × List String × Store) (s : Store)
    (h : SafetyCheckOutput.is_unsafe safety = true) :
    (chat safety router s).1.response = refusal_text ∧
    (chat safety router s).1.guardrail_blocked = true ∧
    (chat safety router s).1.blocked_reason = "safety" ∧
    (chat safety router s).1.tools_called = [] ∧
    (chat safety router s).2 = s := by
  unfold chat safety_guardrail
  simp [h]

/-- C6 witness: a concrete unsafe classification with a router that
would otherwise invoke a capability and mutate the store. -/
theorem C6_unsafe_message_short_circuits_witness :
    SafetyCheckOutput.is_unsafe (SafetyCheckOutput.mk true "medical" "diagnosis request") = true ∧
    ((chat (SafetyCheckOutput.mk true "medical" "diagnosis request")
        (fun s => ("ok", ["delegate_body_tracking"],
          { s with change_events := s.change_events ++ [{ user_id := "u1", type := "X", summary := "", actor := "agent" }] }))
        emptyStore).1.response = refusal_text ∧
     (chat (SafetyCheckOutput.mk true "medical" "diagnosis request")
        (fun s => ("ok", ["delegate_body_tracking"],
          { s with change_events := s.change_events ++ [{ user_id := "u1", type := "X", summary := "", actor := "agent" }] }))
        emptyStore).1.guardrail_blocked = true ∧
     (chat (SafetyCheckOutput.mk true "medical" "diagnosis request")
        (fun s => ("ok", ["delegate_body_tracking"],
          { s with change_events := s.change_events ++ [{ user_id := "u1", type := "X", summary := "", actor := "agent" }] }))
        emptyStore).1.blocked_reason = "safety" ∧
     (chat (SafetyCheckOutput.mk true "medical" "diagnosis request")
        (fun s => ("ok", ["delegate_body_tracking"],
          { s with change_events := s.change_events ++ [{ user_id := "u1", type := "X", summary := "", actor := "agent" }] }))
        emptyStore).1.tools_called = [] ∧
     (chat (SafetyCheckOutput.mk true "medical" "diagnosis request")
        (fun s => ("ok", ["delegate_body_tracking"],
          { s with change_events := s.change_events ++ [{ user_id := "u1", type := "X", summary := "", actor := "agent" }] }))
        emptyStore).2 = emptyStore) :=
  ⟨rfl, C6_unsafe_message_short_circuits (SafetyCheckOutput.mk true "medical" "diagnosis request")
    (fun s => ("ok", ["delegate_body_tracking"],
      { s with change_events := s.change_events ++ [{ user_id := "u1", type := "X", summary := "", actor := "agent" }] }))
    emptyStore rfl⟩

/-- C8: when the decoded `days_json` value is empty or not list-shaped,
the training-plan save returns a structured error and performs no store
mutation at all (no version row, no ChangeEvent). -/
theorem C8_save_training_plan_rejects_bad_days (s : Store) (uid reason now : String) (v : PyVal)
    (hbad : v.isList = false ∨ v = .list []) :
    (save_training_plan s uid (.ok v) reason now).1.success = false ∧
    (save_training_plan s uid (.ok v) reason now).1.error = "days_json må inneholde minst 1 treningsdag" ∧
    (save_training_plan s uid (.ok v) reason now).2 = s := by
  rcases hbad with h | h
  · cases v <;> simp_all [save_training_plan, PyVal.isList]
  · subst h
    exact ⟨rfl, rfl, rfl⟩

/-- C8 witness: a decoded non-list payload (a JSON string) is rejected
without mutation. -/
theorem C8_save_training_plan_rejects_bad_days_witness :
    ((PyVal.str "Mandag").isList = false ∨ PyVal.str "Mandag" = .list []) ∧
    ((save_training_plan emptyStore "u1" (.ok (.str "Mandag")) "" "t").1.success = false ∧
     (save_training_plan emptyStore "u1" (.ok (.str "Mandag")) "" "t").1.error = "days_json må inneholde minst 1 treningsdag" ∧
     (save_training_plan emptyStore "u1" (.ok (.str "Mandag")) "" "t").2 = emptyStore) :=
  ⟨Or.inl rfl, C8_save_training_plan_rejects_bad_days emptyStore "u1" "" "t" (.str "Mandag") (Or.inl rfl)⟩

/-- C9 counterexample: `remember_fact` performs a successful upsert (the
fact row is written) yet appends no ChangeEvent, refuting the claim that
every state-changing executor action — in particular fact remembered —
appends a ChangeEvent audit row. -/
theorem C9_remember_fact_appends_no_event_counterexample :
    (remember_fact emptyStore "u1" "skader" "vond skulder" "t").1.success = true ∧
    (remember_fact emptyStore "u1" "skader" "vond skulder" "t").2.user_context
      = [{ user_id := "u1", key := "skader", value := "vond skulder", source := "agent", updated_at := "t" }] ∧
    (remember_fact emptyStore "u1" "skader" "vond skulder" "t").2.change_events = [] := by
  refine ⟨rfl, ?_, rfl⟩
  rfl

/-- C9 amended: weight logged and plan saved do append a ChangeEvent —
`log_weight`, `save_training_plan` and `save_nutrition_plan` each append
exactly one audit row for the user — but fact remembered does not:
`remember_fact` performs its upsert and reports success without
appending any ChangeEvent. -/
theorem C9_change_event_append_amended (s : Store)
    (uid key value log_date today reason notes now : String) (kg : ℚ)
    (d0 : PyVal) (ds : List PyVal) (kcal protein carbs fat : Int)
    (mealsParse : Except String PyVal)
    (hav : s.available = true) (h20 : 20 ≤ kg) (h500 : kg ≤ 500) :
    ((remember_fact s uid key value now).1.success = true ∧
     (remember_fact s uid key value now).2.change_events = s.change_events) ∧
    (log_weight s uid kg log_date today).2.change_events
      = s.change_events ++ [weightLogEvent uid kg (resolveDate log_date today)] ∧
    (save_training_plan s uid (.ok (.list (d0 :: ds))) reason now).2.change_events
      = s.change_events ++
        [{ user_id := uid, type := "TRAINING_PLAN_SAVED",
           summary := "Treningsplan v" ++ toString (next_version_tp s uid) ++ ": " ++ toString (d0 :: ds).length ++ " dager",
           actor := "agent", after := some { version := next_version_tp s uid, reason := reason } }] ∧
    (save_nutrition_plan s uid kcal protein carbs fat mealsParse notes reason now).2.change_events
      = s.change_events ++
        [{ user_id := uid, type := "NUTRITION_PLAN_SAVED",
           summary := "Kostholdsplan v" ++ toString (next_version_np s uid) ++ ": " ++ toString kcal ++ " kcal, " ++ toString protein ++ "g P",
           actor := "agent", after := some { version := next_version_np s uid, reason := reason } }] := by
  refine ⟨⟨rfl, ?_⟩, ?_, ?_, ?_⟩
  · unfold remember_fact upsert_row_fact
    by_cases h : s.available <;> simp [h]
  · have hcond : ¬(kg < 20 ∨ kg > 500) := fun hor => hor.elim (not_lt.mpr h20) (not_lt.mpr h500)
    unfold log_weight
    rw [if_neg hcond]
    simp only [upsert_row_weight, insert_row_change]
    rw [hav]
    simp [hav, weightLogEvent]
  · unfold save_training_plan
    simp only [insert_row_tp, insert_row_change]
    rw [hav]
    simp [hav]
  · unfold save_nutrition_plan
    simp only [insert_row_np, insert_row_change]
    rw [hav]
    simp [hav]

/-- C9 amended witness: concrete runs on a reachable empty store —
remember_fact appends no event while log_weight and both plan saves each
append one. -/
theorem C9_change_event_append_amended_witness :
    (emptyStore.available = true ∧ 20 ≤ (80 : ℚ) ∧ (80 : ℚ) ≤ 500) ∧
    (((remember_fact emptyStore "u1" "skader" "vond skulder" "t").1.success = true ∧
      (remember_fact emptyStore "u1" "skader" "vond skulder" "t").2.change_events = emptyStore.change_events) ∧
     (log_weight emptyStore "u1" 80 "" "2026-01-01").2.change_events
       = emptyStore.change_events ++ [weightLogEvent "u1" 80 (resolveDate "" "2026-01-01")] ∧
     (save_training_plan emptyStore "u1" (.ok (.list [.dict [("day", .str "Mandag")]])) "" "t").2.change_events
       = emptyStore.change_events ++
         [{ user_id := "u1", type := "TRAINING_PLAN_SAVED",
            summary := "Treningsplan v" ++ toString (next_version_tp emptyStore "u1") ++ ": " ++ toString ([PyVal.dict [("day", .str "Mandag")]]).length ++ " dager",
            actor := "agent", after := some { version := next_version_tp emptyStore "u1", reason := "" } }] ∧
     (save_nutrition_plan emptyStore "u1" 2800 180 310 85 (.ok (.list [])) "" "" "t").2.change_events
       = emptyStore.change_events ++
         [{ user_id := "u1", type := "NUTRITION_PLAN_SAVED",
            summary := "Kostholdsplan v" ++ toString (next_version_np emptyStore "u1") ++ ": " ++ toString (2800 : Int) ++ " kcal, " ++ toString (180 : Int) ++ "g P",
            actor := "agent", after := some { version := next_version_np emptyStore "u1", reason := "" } }]) :=
  ⟨⟨rfl, by decide, by decide⟩,
    C9_change_event_append_amended emptyStore "u1" "skader" "vond skulder" "" "2026-01-01" "" "" "t"
      80 (.dict [("day", .str "Mandag")]) [] 2800 180 310 85 (.ok (.list [])) rfl (by decide) (by decide)⟩

/-- C10: the nutrition-plan save has no failure path: every input, with
any decode outcome for `meals_json`, yields a success result; a decode
failure is silently coerced to an empty meal list, and (on a reachable
store) a new versioned row and a NUTRITION_PLAN_SAVED ChangeEvent are
still written. -/
theorem C10_save_nutrition_plan_never_rejects (s : Store) (uid : String)
    (kcal protein carbs fat : Int) (notes reason now e : String)
    (hav : s.available = true) :
    (∀ s2 : Store, ∀ mp : Except String PyVal,
      (save_nutrition_plan s2 uid kcal protein carbs fat mp notes reason now).1.success = true) ∧
    (save_nutrition_plan s uid kcal protein carbs fat (.error e) notes reason now).2.nutrition_plan_versions
      = s.nutrition_plan_versions ++
        [{ user_id := uid, version := next_version_np s uid, kcal := kcal,
           protein_grams := protein, carbs_grams := carbs, fat_grams := fat,
           meals := .list [], notes := notes, created_at := now }] ∧
    (save_nutrition_plan s uid kcal protein carbs fat (.error e) notes reason now).2.change_events
      = s.change_events ++
        [{ user_id := uid, type := "NUTRITION_PLAN_SAVED",
           summary := "Kostholdsplan v" ++ toString (next_version_np s uid) ++ ": " ++ toString kcal ++ " kcal, " ++ toString protein ++ "g P",
           actor := "agent", after := some { version := next_version_np s uid, reason := reason } }] := by
  refine ⟨fun s2 mp => rfl, ?_, ?_⟩ <;>
    (unfold save_nutrition_plan
     simp only [insert_row_np, insert_row_change]
     rw [hav]
     simp [hav])

/-- C10 witness: a malformed meals payload on a reachable empty store. -/
theorem C10_save_nutrition_plan_never_rejects_witness :
    emptyStore.available = true ∧
    (((save_nutrition_plan downStore "u1" 2800 180 310 85 (.error "oops") "" "" "t").1.success = true ∧
      (save_nutrition_plan emptyStore "u1" 2800 180 310 85 (.ok (.dict [("name", .str "frokost")])) "" "" "t").1.success = true) ∧
    (save_nutrition_plan emptyStore "u1" 2800 180 310 85 (.error "bad json") "" "" "t").2.nutrition_plan_versions
      = emptyStore.nutrition_plan_versions ++
        [{ user_id := "u1", version := next_version_np emptyStore "u1", kcal := 2800,
           protein_grams := 180, carbs_grams := 310, fat_grams := 85,
           meals := .list [], notes := "", created_at := "t" }] ∧
    (save_nutrition_plan emptyStore "u1" 2800 180 310 85 (.error "bad json") "" "" "t").2.change_events
      = emptyStore.change_events ++
        [{ user_id := "u1", type := "NUTRITION_PLAN_SAVED",
           summary := "Kostholdsplan v" ++ toString (next_version_np emptyStore "u1") ++ ": " ++ toString (2800 : Int) ++ " kcal, " ++ toString (180 : Int) ++ "g P",
           actor := "agent", after := some { version := next_version_np emptyStore "u1", reason := "" } }]) :=
  ⟨rfl,
   ⟨(C10_save_nutrition_plan_never_rejects emptyStore "u1" 2800 180 310 85 "" "" "t" "bad json" rfl).1
      downStore (.error "oops"),
    (C10_save_nutrition_plan_never_rejects emptyStore "u1" 2800 180 310 85 "" "" "t" "bad json" rfl).1
      emptyStore (.ok (.dict [("name", .str "frokost")]))⟩,
   (C10_save_nutrition_plan_never_rejects emptyStore "u1" 2800 180 310 85 "" "" "t" "bad json" rfl).2.1,
   (C10_save_nutrition_plan_never_rejects emptyStore "u1" 2800 180 310 85 "" "" "t" "bad json" rfl).2.2⟩

/-- After the bulk update `goals.update(is_current=False).eq(user_id, uid)`,
no goal row of that user is current. -/
lemma cleared_goals_no_current (gs : List GoalRow) (uid : String) :
    ((gs.map (fun g => if g.user_id == uid then { g with is_current := false } else g)).filter
      (fun g => g.user_id == uid && g.is_current)) = [] := by
  induction gs with
  | nil => rfl
  | cons g gs ih =>
    by_cases h : g.user_id == uid
    · simp only [List.map_cons, if_pos h]
      rw [List.filter_cons_of_neg (by simp)]
      exact ih
    · simp only [List.map_cons, if_neg h]
      rw [List.filter_cons_of_neg (by simp [h])]
      exact ih

/-- C3: every sequential invocation of the goal-save executor leaves
exactly one goal row marked current for that user, however many prior
goal rows existed and whatever their current flags were: it first marks
all the user's goal rows not-current, then inserts one next-version row
marked current. -/
theorem C3_save_goal_exactly_one_current (s : Store) (uid : String) (tw : Option ℚ)
    (st : String) (hz : Option Int) (pt now : String)
    (hav : s.available = true) :
    ∃ r s', save_goal s uid tw st hz pt now = .ok (r, s') ∧ r.success = true ∧
      (s'.goals.filter (fun g => g.user_id == uid && g.is_current)).length = 1 ∧
      s'.goals.length = s.goals.length + 1 := by
  unfold save_goal
  rw [if_pos hav]
  simp only [insert_row_goal]
  rw [hav]
  simp only [if_true]
  refine ⟨_, _, rfl, rfl, ?_, ?_⟩
  · rw [List.filter_append, cleared_goals_no_current]
    simp
  · simp

/-- C3 witness: a store that starts with two goal rows both wrongly
marked current for the user still ends with exactly one current row. -/
theorem C3_save_goal_exactly_one_current_witness :
    ({ goals := [
        { user_id := "u1", version := 1, is_current := true, target_weight_kg := some 80,
          strength_targets := "", horizon_weeks := Option.none, plan_text := Option.none, created_at := "t0" },
        { user_id := "u1", version := 2, is_current := true, target_weight_kg := some 78,
          strength_targets := "", horizon_weeks := Option.none, plan_text := Option.none, created_at := "t1" }] } : Store).available = true ∧
    (∃ r s', save_goal ({ goals := [
        { user_id := "u1", version := 1, is_current := true, target_weight_kg := some 80,
          strength_targets := "", horizon_weeks := Option.none, plan_text := Option.none, created_at := "t0" },
        { user_id := "u1", version := 2, is_current := true, target_weight_kg := some 78,
          strength_targets := "", horizon_weeks := Option.none, plan_text := Option.none, created_at := "t1" }] } : Store)
        "u1" (some 75) "Benkpress 100kg" (some 12) "" "t2" = .ok (r, s') ∧ r.success = true ∧
      (s'.goals.filter (fun g => g.user_id == "u1" && g.is_current)).length = 1 ∧
      s'.goals.length = ({ goals := [
        { user_id := "u1", version := 1, is_current := true, target_weight_kg := some 80,
          strength_targets := "", horizon_weeks := Option.none, plan_text := Option.none, created_at := "t0" },
        { user_id := "u1", version := 2, is_current := true, target_weight_kg := some 78,
          strength_targets := "", horizon_weeks := Option.none, plan_text := Option.none, created_at := "t1" }] } : Store).goals.length + 1) :=
  ⟨rfl, C3_save_goal_exactly_one_current _ "u1" (some 75) "Benkpress 100kg" (some 12) "" "t2" rfl⟩

/-- `applyKnowledge` only touches the mentor persona fields. -/
lemma applyKnowledge_onboarding (c : CoachContext) (row : KnowledgeRow) :
    (applyKnowledge c row).onboarding_summary = c.onboarding_summary := by
  unfold applyKnowledge
  split_ifs <;> rfl

/-- Folding coach-knowledge rows never changes the onboarding summary. -/
lemma foldl_applyKnowledge_onboarding (rows : List KnowledgeRow) (c : CoachContext) :
    (rows.foldl applyKnowledge c).onboarding_summary = c.onboarding_summary := by
  induction rows generalizing c with
  | nil => rfl
  | cons r rows ih => rw [List.foldl_cons, ih, applyKnowledge_onboarding]

/-- An unreachable store that does hold user data (a name row and a
populated profile row for u1). -/
def downStoreWithData : Store :=
  { available := false,
    users := [{ id := "u1", firstName := "Ola" }],
    user_profiles := [{ user_id := "u1", current_weight_kg := .num 90,
                        training_days_per_week := .num 4 }] }

/-- C5 counterexample: with the store unreachable but holding a user row
and a populated profile row, `load_context` does not propagate any
error — it silently returns the fully empty context (identical to that
of a user with no data at all), contradicting the claim that it fails
with StoreUnavailable and never silently returns a half-populated
context when the store is down. -/
theorem C5_load_context_counterexample :
    downStoreWithData.available = false ∧
    downStoreWithData.user_profiles ≠ [] ∧
    load_context downStoreWithData "u1" "m1" = { user_id := "u1", mentor_id := "m1" } := by
  refine ⟨rfl, ?_, rfl⟩
  simp [downStoreWithData]

/-- C5 amended: `load_context` never fails.  When the store is
unreachable every read is swallowed into an empty result and the
returned context is the default one (empty name and summaries); when the
store is reachable but the profile row is genuinely absent, the context
is returned normally with an empty onboarding summary. -/
theorem C5_load_context_never_fails_amended (s : Store) (uid mid : String) :
    (s.available = false → load_context s uid mid = { user_id := uid, mentor_id := mid }) ∧
    (s.available = true → find_one_profile s uid = Option.none →
      (load_context s uid mid).onboarding_summary = "") := by
  constructor
  · intro h
    unfold load_context find_one_user find_one_profile find_many_facts find_many_knowledge
    rw [h]
    simp
  · intro _ hp
    unfold load_context
    rw [hp, foldl_applyKnowledge_onboarding]
    rcases find_one_user s mid with _ | m <;>
      rcases find_one_user s uid with _ | u <;>
        simp <;> split_ifs <;> rfl

/-- C5 amended witness: an unreachable store with data yields the empty
context; a reachable store without a profile row yields an empty
onboarding summary. -/
theorem C5_load_context_never_fails_amended_witness :
    (downStoreWithData.available = false ∧
      load_context downStoreWithData "u1" "m1" = { user_id := "u1", mentor_id := "m1" }) ∧
    (emptyStore.available = true ∧ find_one_profile emptyStore "u2" = Option.none ∧
      (load_context emptyStore "u2" "m1").onboarding_summary = "") :=
  ⟨⟨rfl, (C5_load_context_never_fails_amended downStoreWithData "u1" "m1").1 rfl⟩,
   ⟨rfl, rfl, (C5_load_context_never_fails_amended emptyStore "u2" "m1").2 rfl rfl⟩⟩

/-- `range' 1` grows by appending the next number. -/
lemma range1_concat (n : Nat) : List.range' 1 (n+1) = List.range' 1 n ++ [n+1] := by
  rw [List.range'_concat]
  simp [Nat.add_comm]

/-- The start value is a lower bound of `foldl max`. -/
lemma le_foldl_max (l : List Nat) : ∀ a : Nat, a ≤ l.foldl max a := by
  induction l with
  | nil => intro a; exact Nat.le_refl a
  | cons x xs ih => intro a; exact le_trans (Nat.le_max_left a x) (ih (max a x))

/-- `foldl max` bounds every element, and is the start value or a member. -/
lemma foldl_max_spec (l : List Nat) : ∀ a : Nat,
    (∀ w ∈ l, w ≤ l.foldl max a) ∧ (l.foldl max a = a ∨ l.foldl max a ∈ l) := by
  induction l with
  | nil => intro a; exact ⟨by simp, Or.inl rfl⟩
  | cons x xs ih =>
    intro a
    obtain ⟨hle, hmem⟩ := ih (max a x)
    refine ⟨?_, ?_⟩
    · intro w hw
      rcases List.mem_cons.mp hw with hw | hw
      · subst hw
        exact le_trans (Nat.le_max_right a w) (le_foldl_max xs (max a w))
      · exact hle w hw
    · rcases hmem with h | h
      · rcases Nat.le_total a x with hax | hxa
        · right
          rw [List.foldl_cons, h, Nat.max_eq_right hax]
          exact List.mem_cons_self x xs
        · left
          rw [List.foldl_cons, h, Nat.max_eq_left hxa]
      · right
        exact List.mem_cons_of_mem x h

/-- `foldl max 0` over 1..n is n. -/
lemma foldl_max_range1 (n : Nat) : (List.range' 1 n).foldl max 0 = n := by
  induction n with
  | zero => rfl
  | succ n ih =>
    rw [range1_concat, List.foldl_append, ih, List.foldl_cons, List.foldl_nil]
    omega

/-- `n` sequential invocations of the training-plan save executor. -/
def saveN (s : Store) (uid : String) (daysParse : Except String PyVal) (reason now : String) :
    Nat → Store
  | 0 => s
  | n + 1 => (save_training_plan (saveN s uid daysParse reason now n) uid daysParse reason now).2

/-- Invariant of sequential training-plan saves: starting from a
reachable store holding no plan rows for the user, after `n` saves of a
nonempty day list the user's plan rows are exactly versions 1..n of that
day list, and the store stays reachable. -/
lemma saveN_tp_invariant (s : Store) (uid : String) (d0 : PyVal) (ds : List PyVal)
    (reason now : String) (hav : s.available = true)
    (h0 : s.training_plan_versions.filter (fun r => r.user_id == uid) = []) (n : Nat) :
    (saveN s uid (.ok (.list (d0 :: ds))) reason now n).available = true ∧
    (saveN s uid (.ok (.list (d0 :: ds))) reason now n).training_plan_versions.filter
        (fun r => r.user_id == uid)
      = (List.range' 1 n).map
          (fun v => ({ user_id := uid, version := v, days := d0 :: ds, created_at := now } : TrainingPlanRow)) := by
  induction n with
  | zero => exact ⟨hav, by simpa using h0⟩
  | succ n ih =>
    obtain ⟨ihav, ihrows⟩ := ih
    have hver : next_version_tp (saveN s uid (.ok (.list (d0 :: ds))) reason now n) uid = n + 1 := by
      unfold next_version_tp tpVersions
      rw [if_pos ihav, ihrows, List.map_map]
      have hproj : ((fun r : TrainingPlanRow => r.version) ∘
          (fun v => ({ user_id := uid, version := v, days := d0 :: ds, created_at := now } : TrainingPlanRow)))
          = fun v => v := rfl
      rw [hproj, List.map_id', foldl_max_range1]
    simp only [saveN]
    unfold save_training_plan
    simp only [insert_row_tp, insert_row_change]
    rw [ihav, hver]
    simp only [if_true]
    constructor
    · simp [ihav]
    · rw [List.filter_append, ihrows, range1_concat, List.map_append]
      simp

/-- The running best of the max-version fold is the start or a member. -/
lemma betterRow_foldl_mem (l : List TrainingPlanRow) :
    ∀ (acc : Option TrainingPlanRow) (a : TrainingPlanRow),
      l.foldl betterRow acc = some a → acc = some a ∨ a ∈ l := by
  induction l with
  | nil => intro acc a h; exact Or.inl h
  | cons x xs ih =>
    intro acc a h
    rw [List.foldl_cons] at h
    rcases ih _ a h with hacc | hmem
    · rcases acc with _ | b
      · right
        have hx : x = a := by
          simpa [betterRow] using hacc
        rw [hx]
        exact List.mem_cons_self a xs
      · by_cases hbx : b.version < x.version
        · right
          have hx : x = a := by
            simpa [betterRow, if_pos hbx] using hacc
          rw [hx]
          exact List.mem_cons_self a xs
        · left
          simpa [betterRow, if_neg hbx] using hacc
    · exact Or.inr (List.mem_cons_of_mem x hmem)

/-- Appending a strictly higher-version row makes it the selected row. -/
lemma maxVersionRow_append_last (l : List TrainingPlanRow) (r : TrainingPlanRow)
    (h : ∀ x ∈ l, x.version < r.version) : maxVersionRow (l ++ [r]) = some r := by
  unfold maxVersionRow
  rw [List.foldl_append]
  rcases hacc : l.foldl betterRow Option.none with _ | a
  · rfl
  · rcases betterRow_foldl_mem l Option.none a hacc with h1 | h2
    · exact absurd h1 (by simp)
    · have hv := h a h2
      simp [betterRow, hv]

/-- C2: `next_version` returns 1 plus the maximum existing version for
the user in the collection (1 when none exists), and consequently N
sequential training-plan saves from an empty history produce versions
exactly 1..N with no gaps or repeats, after which the current-plan read
returns version N. -/
theorem C2_next_version_and_sequential_saves (s : Store) (uid : String)
    (d0 : PyVal) (ds : List PyVal) (reason now : String) (n : Nat)
    (hav : s.available = true)
    (h0 : s.training_plan_versions.filter (fun r => r.user_id == uid) = []) :
    (∀ s2 : Store, ∀ u : String, s2.available = true →
      ((tpVersions s2 u = [] → next_version_tp s2 u = 1) ∧
       (tpVersions s2 u ≠ [] → ∃ v ∈ tpVersions s2 u,
         (∀ w ∈ tpVersions s2 u, w ≤ v) ∧ next_version_tp s2 u = v + 1))) ∧
    tpVersions (saveN s uid (.ok (.list (d0 :: ds))) reason now n) uid = List.range' 1 n ∧
    (1 ≤ n → get_current_training_plan (saveN s uid (.ok (.list (d0 :: ds))) reason now n) uid
      = .ok { has_plan := true, version := some n, days := d0 :: ds }) := by
  have hinv := saveN_tp_invariant s uid d0 ds reason now hav h0
  refine ⟨?_, ?_, ?_⟩
  · intro s2 u h2
    constructor
    · intro hempty
      unfold next_version_tp
      rw [if_pos h2, hempty]
      rfl
    · intro hne
      obtain ⟨hle, hmem⟩ := foldl_max_spec (tpVersions s2 u) 0
      have hmem' : (tpVersions s2 u).foldl max 0 ∈ tpVersions s2 u := by
        rcases hmem with hz | hm
        · rcases List.exists_mem_of_ne_nil _ hne with ⟨y, hy⟩
          have hy0 : y = 0 := Nat.le_zero.mp (hz ▸ hle y hy)
          rw [hz, ← hy0]
          exact hy
        · exact hm
      refine ⟨(tpVersions s2 u).foldl max 0, hmem', hle, ?_⟩
      unfold next_version_tp
      rw [if_pos h2]
  · obtain ⟨_, hrows⟩ := hinv n
    unfold tpVersions
    rw [hrows, List.map_map]
    have hproj : ((fun r : TrainingPlanRow => r.version) ∘
        (fun v => ({ user_id := uid, version := v, days := d0 :: ds, created_at := now } : TrainingPlanRow)))
        = fun v => v := rfl
    rw [hproj, List.map_id']
  · intro hn
    obtain ⟨havn, hrows⟩ := hinv n
    rcases n with _ | m
    · exact absurd hn (by omega)
    · unfold get_current_training_plan
      rw [if_pos havn, hrows, range1_concat, List.map_append, List.map_cons, List.map_nil]
      rw [maxVersionRow_append_last]
      intro x hx
      rcases List.mem_map.mp hx with ⟨v, hv, hfx⟩
      rw [List.mem_range'_1] at hv
      rw [← hfx]
      simp only
      omega

/-- C2 witness: three sequential saves of a one-day plan on an empty
reachable store yield versions [1, 2, 3] and a current read of
version 3. -/
theorem C2_next_version_and_sequential_saves_witness :
    (emptyStore.available = true ∧
      emptyStore.training_plan_versions.filter (fun r => r.user_id == "u1") = []) ∧
    next_version_tp emptyStore "u1" = 1 ∧
    (∃ v ∈ tpVersions (saveN emptyStore "u1"
        (.ok (.list [.dict [("day", .str "Mandag")]])) "" "t" 3) "u1",
      (∀ w ∈ tpVersions (saveN emptyStore "u1"
        (.ok (.list [.dict [("day", .str "Mandag")]])) "" "t" 3) "u1", w ≤ v) ∧
      next_version_tp (saveN emptyStore "u1"
        (.ok (.list [.dict [("day", .str "Mandag")]])) "" "t" 3) "u1" = v + 1) ∧
    tpVersions (saveN emptyStore "u1"
        (.ok (.list [.dict [("day", .str "Mandag")]])) "" "t" 3) "u1" = List.range' 1 3 ∧
    get_current_training_plan (saveN emptyStore "u1"
        (.ok (.list [.dict [("day", .str "Mandag")]])) "" "t" 3) "u1"
      = .ok { has_plan := true, version := some 3, days := [.dict [("day", .str "Mandag")]] } :=
  ⟨⟨rfl, rfl⟩,
    ((C2_next_version_and_sequential_saves emptyStore "u1" (.dict [("day", .str "Mandag")]) []
        "" "t" 3 rfl rfl).1 emptyStore "u1" rfl).1 rfl,
    ((C2_next_version_and_sequential_saves emptyStore "u1" (.dict [("day", .str "Mandag")]) []
        "" "t" 3 rfl rfl).1
      (saveN emptyStore "u1" (.ok (.list [.dict [("day", .str "Mandag")]])) "" "t" 3) "u1"
      (by decide)).2 (by decide),
    (C2_next_version_and_sequential_saves emptyStore "u1" (.dict [("day", .str "Mandag")]) []
        "" "t" 3 rfl rfl).2.1,
    (C2_next_version_and_sequential_saves emptyStore "u1" (.dict [("day", .str "Mandag")]) []
        "" "t" 3 rfl rfl).2.2 (by decide)⟩

end Mentorio
